import Mathlib

/-!
Shallow embedding of `src/query.py` (ilamb-setup).

The script has two pieces of genuine logic:
  * `has_carbon_cycle`: a completeness predicate over the set of
    `variable_id` values present for one (source_id, member_id, grid_label)
    group;
  * the grouped requery loop: one narrower `search` call per distinct
    surviving group, whose result tables are appended to a list `dfs` and
    finally combined with `pd.concat(dfs)`.

Tables are modelled as lists of rows (row type is a parameter); the set of
variable identifiers of a group is modelled as a `List String` with
membership playing the role of Python set membership.
-/

/-- Python `s.isdisjoint(other)`: true iff `s` and `other` share no element. -/
def setIsdisjoint (s other : List String) : Bool :=
  other.all (fun v => decide (v ∉ s))

/-- Python `s.issuperset(other)`: true iff every element of `other` is in `s`. -/
def setIssuperset (s other : List String) : Bool :=
  other.all (fun v => decide (v ∈ s))

/-- `has_carbon_cycle` from `src/query.py`: the group's variable set must meet
at least one of {cSoil, cSoilAbove1m}, at least one of
{nbp, netAtmosLandCO2Flux}, and all of {cVeg, gpp, lai}. -/
def has_carbon_cycle (vars : List String) : Bool :=
  if setIsdisjoint vars ["cSoil", "cSoilAbove1m"] then false
  else if setIsdisjoint vars ["nbp", "netAtmosLandCO2Flux"] then false
  else if setIssuperset vars ["cVeg", "gpp", "lai"] then true
  else false

/-- A distinct (source_id, member_id, grid_label) combination from
`cat.model_groups()`. -/
abbrev ModelGroup := String × String × String

/-- The `variable_id` list of the initial completeness search in
`src/query.py`. -/
def initial_variable_id : List String :=
  ["cSoilAbove1m", "cSoil", "cVeg", "gpp", "lai", "nbp", "netAtmosLandCO2Flux"]

/-- The fixed `variable_id` list passed to each per-group requery in
`src/query.py`. -/
def requery_variable_id : List String :=
  ["burntFractionAll", "cSoilAbove1m", "cSoil", "cVeg", "evspsbl", "fBNF",
   "gpp", "hfls", "hfss", "lai", "mrro", "mrsos", "nbp",
   "netAtmosLandCO2Flux", "pr", "ra", "rh", "hurs", "rlds", "rlus", "rsds",
   "rsus", "snw", "tas", "tasmax", "tasmin", "tsl"]

/-- The grouped requery loop of `src/query.py`: for each group one `search`
call is issued (first component counts the calls) and its result table is
appended to `dfs` (second component). -/
def groupedRequery {ρ : Type} (search : ModelGroup → List ρ)
    (groups : List ModelGroup) : Nat × List (List ρ) :=
  groups.foldl (fun acc g => (acc.1 + 1, acc.2 ++ [search g])) (0, [])

/-- `pd.concat(dfs)`: pandas raises `ValueError: No objects to concatenate`
on an empty list of tables, otherwise concatenates the tables in order. -/
def pd_concat {ρ : Type} (dfs : List (List ρ)) : Except String (List ρ) :=
  if dfs.isEmpty then Except.error "No objects to concatenate"
  else Except.ok dfs.flatten

/-- The grouped requery loop with a fallible `search`, mirroring Python
exception semantics: the first component is the list of sub-queries actually
issued, the second the outcome (error of the first failing call, or the list
of result tables). -/
def groupedRequeryTrace {ε ρ : Type} (search : ModelGroup → Except ε (List ρ)) :
    List ModelGroup → List ModelGroup × Except ε (List (List ρ))
  | [] => ([], Except.ok [])
  | g :: gs =>
    match search g with
    | Except.error e => ([g], Except.error e)
    | Except.ok t =>
      match groupedRequeryTrace search gs with
      | (calls, Except.error e) => (g :: calls, Except.error e)
      | (calls, Except.ok dfs) => (g :: calls, Except.ok (t :: dfs))

/-- A concrete two-group fixture used to evaluate the loop theorems. -/
def groupsDemo : List ModelGroup := [("a", "r1", "gn"), ("b", "r1", "gn")]

/-- A concrete search function for the fixture groups: two rows for the
first group, one row for the second. -/
def searchDemo : ModelGroup → List Nat :=
  fun g => if g.1 = "a" then [10, 11] else [20]

/-- A concrete fallible search: the group with source_id "b" fails, all
others return an empty table. -/
def searchFail : ModelGroup → Except String (List Nat) :=
  fun g => if g.1 = "b" then Except.error "boom" else Except.ok []

/-- Characterization of `has_carbon_cycle` as plain membership logic. -/
lemma has_carbon_cycle_char (vs : List String) :
    has_carbon_cycle vs = true ↔
      ("cSoil" ∈ vs ∨ "cSoilAbove1m" ∈ vs) ∧
      ("nbp" ∈ vs ∨ "netAtmosLandCO2Flux" ∈ vs) ∧
      ("cVeg" ∈ vs ∧ "gpp" ∈ vs ∧ "lai" ∈ vs) := by
  unfold has_carbon_cycle setIsdisjoint setIssuperset
  simp only [List.all_cons, List.all_nil, Bool.and_true, Bool.and_eq_true,
    decide_eq_true_eq]
  split_ifs with h1 h2 h3 <;> simp_all
  tauto

/-- Unrolling the fold underlying `groupedRequery` from any accumulator. -/
lemma groupedRequery_foldl {ρ : Type} (search : ModelGroup → List ρ)
    (groups : List ModelGroup) (n : Nat) (acc : List (List ρ)) :
    groups.foldl (fun acc g => (acc.1 + 1, acc.2 ++ [search g])) (n, acc) =
      (n + groups.length, acc ++ groups.map search) := by
  induction groups generalizing n acc with
  | nil => simp
  | cons g gs ih =>
    simp only [List.foldl_cons, List.map_cons, List.length_cons, ih,
      Prod.mk.injEq]
    exact ⟨by omega, by simp⟩

/-- The loop issues one call per group and collects the per-group tables in
iteration order. -/
lemma groupedRequery_eq {ρ : Type} (search : ModelGroup → List ρ)
    (groups : List ModelGroup) :
    groupedRequery search groups = (groups.length, groups.map search) := by
  unfold groupedRequery
  rw [groupedRequery_foldl]
  simp

/-- Block structure of a flattened list of tables: dropping the total length
of the first `i` tables and taking the length of table `i` recovers table
`i`. -/
lemma flatten_drop_take {ρ : Type} (tables : List (List ρ)) (i : Nat)
    (h : i < tables.length) :
    ((tables.flatten).drop (((tables.take i).map List.length).sum)).take
        (tables.get ⟨i, h⟩).length = tables.get ⟨i, h⟩ := by
  induction tables generalizing i with
  | nil => simp at h
  | cons t rest ih =>
    cases i with
    | zero =>
      simp [List.take_left]
    | succ j =>
      have hj : j < rest.length := by simpa using h
      have hdrop :
          ((t :: rest).flatten).drop
              ((((t :: rest).take (j + 1)).map List.length).sum) =
            (rest.flatten).drop (((rest.take j).map List.length).sum) := by
        simp only [List.take_succ_cons, List.map_cons, List.sum_cons,
          List.flatten_cons]
        rw [← List.drop_drop, List.drop_left]
      rw [hdrop]
      exact ih j hj

/-- C1: `has_carbon_cycle` returns true on a variable set iff the set holds
at least one of {cSoil, cSoilAbove1m}, at least one of
{nbp, netAtmosLandCO2Flux}, and all three of {cVeg, gpp, lai}. -/
theorem has_carbon_cycle_complete_iff (vs : List String) :
    has_carbon_cycle vs = true ↔
      ("cSoil" ∈ vs ∨ "cSoilAbove1m" ∈ vs) ∧
      ("nbp" ∈ vs ∨ "netAtmosLandCO2Flux" ∈ vs) ∧
      ("cVeg" ∈ vs ∧ "gpp" ∈ vs ∧ "lai" ∈ vs) :=
  has_carbon_cycle_char vs

/-- C3: a variable set missing any one of cVeg, gpp, or lai is rejected by
`has_carbon_cycle`, whatever else it holds. -/
theorem has_carbon_cycle_missing_core_false (vs : List String)
    (h : "cVeg" ∉ vs ∨ "gpp" ∉ vs ∨ "lai" ∉ vs) :
    has_carbon_cycle vs = false := by
  rcases heq : has_carbon_cycle vs with _ | _
  · rfl
  · have := (has_carbon_cycle_char vs).mp heq
    tauto

/-- Witness for C3 at the concrete set {cSoil, nbp, gpp, lai}. -/
theorem has_carbon_cycle_missing_core_false_witness :
    ("cVeg" ∉ (["cSoil", "nbp", "gpp", "lai"] : List String) ∨
      "gpp" ∉ (["cSoil", "nbp", "gpp", "lai"] : List String) ∨
      "lai" ∉ (["cSoil", "nbp", "gpp", "lai"] : List String)) ∧
    has_carbon_cycle ["cSoil", "nbp", "gpp", "lai"] = false :=
  ⟨by decide,
    has_carbon_cycle_missing_core_false ["cSoil", "nbp", "gpp", "lai"]
      (by decide)⟩

/-- C4: any variable set holding all of cVeg, gpp, lai, cSoil and nbp is
accepted by `has_carbon_cycle`. -/
theorem has_carbon_cycle_main_branch_true (vs : List String)
    (h1 : "cVeg" ∈ vs) (h2 : "gpp" ∈ vs) (h3 : "lai" ∈ vs)
    (h4 : "cSoil" ∈ vs) (h5 : "nbp" ∈ vs) :
    has_carbon_cycle vs = true :=
  (has_carbon_cycle_char vs).mpr ⟨Or.inl h4, Or.inl h5, h1, h2, h3⟩

/-- Witness for C4 at a concrete superset of {cVeg, gpp, lai, cSoil, nbp}. -/
theorem has_carbon_cycle_main_branch_true_witness :
    "cVeg" ∈ (["tas", "cVeg", "gpp", "lai", "cSoil", "nbp"] : List String) ∧
    has_carbon_cycle ["tas", "cVeg", "gpp", "lai", "cSoil", "nbp"] = true :=
  ⟨by decide,
    has_carbon_cycle_main_branch_true ["tas", "cVeg", "gpp", "lai", "cSoil", "nbp"]
      (by decide) (by decide) (by decide) (by decide) (by decide)⟩

/-- C5: any variable set holding all of cSoilAbove1m, netAtmosLandCO2Flux,
cVeg, gpp and lai (the alternate branch) is accepted by
`has_carbon_cycle`. -/
theorem has_carbon_cycle_alternate_branch_true (vs : List String)
    (h1 : "cSoilAbove1m" ∈ vs) (h2 : "netAtmosLandCO2Flux" ∈ vs)
    (h3 : "cVeg" ∈ vs) (h4 : "gpp" ∈ vs) (h5 : "lai" ∈ vs) :
    has_carbon_cycle vs = true :=
  (has_carbon_cycle_char vs).mpr ⟨Or.inr h1, Or.inr h2, h3, h4, h5⟩

/-- Witness for C5 at the concrete alternate-branch set. -/
theorem has_carbon_cycle_alternate_branch_true_witness :
    "cSoilAbove1m" ∈
      (["cSoilAbove1m", "netAtmosLandCO2Flux", "cVeg", "gpp", "lai"] :
        List String) ∧
    has_carbon_cycle
      ["cSoilAbove1m", "netAtmosLandCO2Flux", "cVeg", "gpp", "lai"] = true :=
  ⟨by decide,
    has_carbon_cycle_alternate_branch_true
      ["cSoilAbove1m", "netAtmosLandCO2Flux", "cVeg", "gpp", "lai"]
      (by decide) (by decide) (by decide) (by decide) (by decide)⟩

/-- C8: `has_carbon_cycle` is monotone in the variable set: a set accepted
stays accepted after adding variables. -/
theorem has_carbon_cycle_monotone (s t : List String)
    (h : has_carbon_cycle s = true) (hsub : ∀ v, v ∈ s → v ∈ t) :
    has_carbon_cycle t = true := by
  have hs := (has_carbon_cycle_char s).mp h
  refine (has_carbon_cycle_char t).mpr ?_
  obtain ⟨hsoil, hflux, hv, hg, hl⟩ := hs
  refine ⟨?_, ?_, hsub _ hv, hsub _ hg, hsub _ hl⟩
  · rcases hsoil with hx | hx
    · exact Or.inl (hsub _ hx)
    · exact Or.inr (hsub _ hx)
  · rcases hflux with hx | hx
    · exact Or.inl (hsub _ hx)
    · exact Or.inr (hsub _ hx)

/-- Witness for C8: a concrete accepted set and a concrete superset. -/
theorem has_carbon_cycle_monotone_witness :
    has_carbon_cycle ["cSoil", "nbp", "cVeg", "gpp", "lai"] = true ∧
    has_carbon_cycle ["cSoil", "nbp", "cVeg", "gpp", "lai", "tas"] = true :=
  ⟨by decide,
    has_carbon_cycle_monotone ["cSoil", "nbp", "cVeg", "gpp", "lai"]
      ["cSoil", "nbp", "cVeg", "gpp", "lai", "tas"] (by decide)
      (by intro v hv; simp only [List.mem_cons, List.not_mem_nil] at hv ⊢
          tauto)⟩

/-- C2: over N distinct groups the loop issues exactly N sub-query calls,
and the concatenated output has as many rows as the per-group result tables
together. -/
theorem grouped_requery_count_and_sum {ρ : Type} (search : ModelGroup → List ρ)
    (groups : List ModelGroup) (_h : groups.Nodup) :
    (groupedRequery search groups).1 = groups.length ∧
    ((groupedRequery search groups).2).flatten.length =
      (groups.map (fun g => (search g).length)).sum := by
  rw [groupedRequery_eq]
  refine ⟨rfl, ?_⟩
  rw [List.length_flatten, List.map_map]
  rfl

/-- Witness for C2 on the two-group fixture. -/
theorem grouped_requery_count_and_sum_witness :
    groupsDemo.Nodup ∧
    ((groupedRequery searchDemo groupsDemo).1 = groupsDemo.length ∧
      ((groupedRequery searchDemo groupsDemo).2).flatten.length =
        (groupsDemo.map (fun g => (searchDemo g).length)).sum) :=
  ⟨by decide, grouped_requery_count_and_sum searchDemo groupsDemo (by decide)⟩

/-- C6: in the combined table, the rows of group i form a contiguous block
sitting right after the blocks of the earlier groups, in the group-iteration
order, each block keeping its own row order. -/
theorem grouped_requery_blocks {ρ : Type} (search : ModelGroup → List ρ)
    (groups : List ModelGroup) (i : Nat) (h : i < groups.length) :
    (((groupedRequery search groups).2.flatten).drop
        (((groups.take i).map (fun g => (search g).length)).sum)).take
      (search (groups.get ⟨i, h⟩)).length = search (groups.get ⟨i, h⟩) := by
  rw [groupedRequery_eq]
  have hm : i < (groups.map search).length := by simpa using h
  have hblock := flatten_drop_take (groups.map search) i hm
  rw [← List.map_take, List.map_map] at hblock
  simpa [List.getElem_map] using hblock

/-- Witness for C6: the block of the second fixture group is recovered. -/
theorem grouped_requery_blocks_witness :
    1 < groupsDemo.length ∧
    (((groupedRequery searchDemo groupsDemo).2.flatten).drop
        (((groupsDemo.take 1).map (fun g => (searchDemo g).length)).sum)).take
      (searchDemo (groupsDemo.get ⟨1, by decide⟩)).length =
        searchDemo (groupsDemo.get ⟨1, by decide⟩) :=
  ⟨by decide, grouped_requery_blocks searchDemo groupsDemo 1 (by decide)⟩

/-- C7: when the sub-query of some group fails after all earlier groups
succeeded, the error propagates as the loop's outcome, no later sub-query is
issued, and no combined table is produced. -/
theorem grouped_requery_error_aborts {ε ρ : Type}
    (search : ModelGroup → Except ε (List ρ)) (pre post : List ModelGroup)
    (g : ModelGroup) (e : ε)
    (hpre : ∀ p ∈ pre, ∃ t, search p = Except.ok t)
    (hg : search g = Except.error e) :
    (groupedRequeryTrace search (pre ++ g :: post)).2 = Except.error e ∧
    (groupedRequeryTrace search (pre ++ g :: post)).1 = pre ++ [g] := by
  induction pre with
  | nil => simp [groupedRequeryTrace, hg]
  | cons p ps ih =>
    obtain ⟨t, ht⟩ := hpre p (List.mem_cons_self p ps)
    have ih2 := ih (fun q hq => hpre q (List.mem_cons_of_mem p hq))
    rcases htr : groupedRequeryTrace search (ps ++ g :: post) with ⟨calls, res⟩
    rw [htr] at ih2
    have hres : res = Except.error e := ih2.1
    have hcalls : calls = ps ++ [g] := ih2.2
    subst hres
    subst hcalls
    simp [List.cons_append, groupedRequeryTrace, ht, htr]

/-- Witness for C7: the fixture search fails on the middle group. -/
theorem grouped_requery_error_aborts_witness :
    (∀ p ∈ ([("a", "r1", "gn")] : List ModelGroup),
      ∃ t, searchFail p = Except.ok t) ∧
    searchFail ("b", "r1", "gn") = Except.error "boom" ∧
    ((groupedRequeryTrace searchFail
        ([("a", "r1", "gn")] ++ ("b", "r1", "gn") :: [("c", "r1", "gn")])).2 =
      Except.error "boom" ∧
     (groupedRequeryTrace searchFail
        ([("a", "r1", "gn")] ++ ("b", "r1", "gn") :: [("c", "r1", "gn")])).1 =
      [("a", "r1", "gn")] ++ [("b", "r1", "gn")]) :=
  ⟨fun p hp => ⟨[], by fin_cases hp; rfl⟩, rfl,
    grouped_requery_error_aborts searchFail [("a", "r1", "gn")]
      [("c", "r1", "gn")] ("b", "r1", "gn") "boom"
      (fun p hp => ⟨[], by fin_cases hp; rfl⟩) rfl⟩

/-- C9: with zero surviving groups the loop collects no tables, and
`pd.concat` on the empty list of tables raises instead of returning an empty
combined table. -/
theorem empty_groups_concat_raises {ρ : Type} (search : ModelGroup → List ρ) :
    pd_concat ((groupedRequery search ([] : List ModelGroup)).2) =
      Except.error "No objects to concatenate" := rfl

/-- C10: every variable of the initial completeness search's list also
appears in the fixed per-group requery list. -/
theorem requery_variables_cover_initial :
    initial_variable_id ⊆ requery_variable_id := by
  intro v hv
  fin_cases hv <;> decide
